import Mathlib

/-!
Verification of the acquisition engine of `src/driver/ks53230.py` (class KS53230,
a driver for the Keysight 53230A frequency counter).

The Python methods are embedded shallowly:

* the device session is modelled by a trace of structured commands (`Cmd`) that the
  engine emits (`write` and `query` calls, in order) together with an oracle
  `List String` of query responses, consumed one per query; an exhausted oracle
  models a device that never answers (the engine would block forever there);
* measurement values appended to the external result container are collected in a
  `List ℚ`;
* Python exceptions become the explicit `Err` type; a method returns its command
  trace, its appended values and an optional error;
* calls on the injected logger object are no-ops (the logging sink is an external
  collaborator), but the `%`-formatting of a log argument is evaluated by the engine
  itself before the call, so format expressions that raise in Python are modelled
  as raising (`trigLevel` line 141, `freq` line 206);
* Python `int(...)`/`float(...)` on strings are `pyInt?`/`pyFloat?` over ℚ;
  string `%d`/`%.6f` formatting of already-validated integers is kept as text, while
  the `%1.3f` voltage format carries the rational value symbolically in the command.

Numbered line references are to `src/driver/ks53230.py`.
-/

namespace KS53230

/-! ### Python-style string to number conversion -/

/-- Numeric value of a list of decimal digit characters. -/
def digitsVal (cs : List Char) : ℕ :=
  cs.foldl (fun a c => 10 * a + (c.toNat - 48)) 0

/-- Leading sign of a numeric literal, as Python `int`/`float` accept it. -/
def parseSign : List Char → ℤ × List Char
  | '+' :: r => (1, r)
  | '-' :: r => (-1, r)
  | r => (1, r)

/-- Strip leading and trailing whitespace, as Python `int(str)`/`float(str)` do. -/
def trimWS (cs : List Char) : List Char :=
  ((cs.dropWhile Char.isWhitespace).reverse.dropWhile Char.isWhitespace).reverse

/-- Python `int(s)`: optional sign followed by one or more decimal digits
(`int("0.5")` raises ValueError). -/
def pyInt? (s : String) : Option ℤ :=
  let cs := trimWS s.toList
  let (sg, r) := parseSign cs
  if r ≠ [] ∧ r.all Char.isDigit then some (sg * (digitsVal r : ℤ)) else none

/-- Ten to an integer power, as a rational. -/
def pow10 : ℤ → ℚ
  | Int.ofNat n => (10 : ℚ) ^ n
  | Int.negSucc n => 1 / ((10 : ℚ) ^ (n + 1))

/-- Exponent tail of a float literal: sign and at least one digit. -/
def parseExpTail (r : List Char) : Option ℤ :=
  let (sg, r1) := parseSign r
  if r1 ≠ [] ∧ r1.all Char.isDigit then some (sg * (digitsVal r1 : ℤ)) else none

/-- Optional exponent part of a float literal; the empty rest means exponent 0. -/
def parseExpPart : List Char → Option ℤ
  | [] => some 0
  | 'e' :: r => parseExpTail r
  | 'E' :: r => parseExpTail r
  | _ => none

/-- Python `float(s)` on decimal literals (sign, digits, optional fraction and
exponent); returns the exact rational value, `none` where Python raises
ValueError. -/
def pyFloatCs? (cs0 : List Char) : Option ℚ :=
  let (sg, r1) := parseSign (trimWS cs0)
  let d1 := r1.takeWhile Char.isDigit
  let r2 := r1.dropWhile Char.isDigit
  match r2 with
  | '.' :: r3 =>
    let d2 := r3.takeWhile Char.isDigit
    let r4 := r3.dropWhile Char.isDigit
    if d1 = [] ∧ d2 = [] then none
    else
      match parseExpPart r4 with
      | none => none
      | some e => some ((sg : ℚ) * (digitsVal (d1 ++ d2) : ℚ) * pow10 (e - d2.length))
  | _ =>
    if d1 = [] then none
    else
      match parseExpPart r2 with
      | none => none
      | some e => some ((sg : ℚ) * (digitsVal d1 : ℚ) * pow10 e)

/-- Python `float` on a `String`. -/
def pyFloat? (s : String) : Option ℚ :=
  pyFloatCs? s.toList

/-! ### The configuration-string parser -/

/-- Split a character list at every character satisfying `p`, keeping empty pieces. -/
def splitOnPred (p : Char → Bool) : List Char → List (List Char)
  | [] => [[]]
  | c :: r =>
    let rest := splitOnPred p r
    if p c then [] :: rest
    else
      match rest with
      | h :: t => (c :: h) :: t
      | [] => [[c]]

/-- Whitespace-separated tokens of a string (empty pieces dropped, as Python
`str.split()` with no argument does). -/
def wsTokens (s : String) : List (List Char) :=
  (splitOnPred Char.isWhitespace s.toList).filter (· ≠ [])

/-- A token is kept exactly when it contains exactly one `:`; it then maps the part
before the colon to the part after it. -/
def parseTok? (t : List Char) : Option (String × String) :=
  if t.count ':' = 1 then
    some (String.mk (t.takeWhile (· ≠ ':')), String.mk ((t.dropWhile (· ≠ ':')).drop 1))
  else none

/-- A parsed configuration: key/value pairs in token order. -/
abbrev ConfigMap := List (String × String)

/-- Modelled from the spec: `parseConfig` is defined on the base class `GenCounter`
in `driver/gencounter.py`, which is not among the sources; per the spec (section
4.1) it splits the input on whitespace into tokens, keeps exactly the tokens that
contain exactly one `:` as `key:value` pairs, drops malformed tokens without error,
and returns an empty map for empty input; duplicate keys overwrite (last wins),
which the association list realises by reading the last binding (`cfgGet?`). -/
def parseConfig (s : String) : ConfigMap :=
  (wsTokens s).filterMap parseTok?

/-- Value bound to a key (`cfgdict[k]`), honouring last-wins overwriting;
`none` models a Python `KeyError`. -/
def cfgGet? (m : ConfigMap) (k : String) : Option String :=
  (m.reverse.find? (fun p => p.1 == k)).map (·.2)

/-- Keys of the map in first-insertion order, as iterating a Python dict yields
them. -/
def firstKeysAux : List String → List String → List String
  | [], _ => []
  | k :: r, seen => if k ∈ seen then firstKeysAux r seen else k :: firstKeysAux r (k :: seen)

/-- Keys of a parsed configuration, in Python dict order. -/
def keysOf (m : ConfigMap) : List String :=
  firstKeysAux (m.map (·.1)) []

/-- The string `" ".join(keys)` that the driver scans with a regular expression. -/
def joinedKeys (m : ConfigMap) : List Char :=
  List.intercalate [' '] ((keysOf m).map String.toList)

/-- Scanner state machine for the regular expression `trig\d`: the state is the
number of pattern characters matched so far. Because no character of `trig`
other than its first equals `t`, restarting a failed match one position further
(as `re.findall` does) reduces to restarting at the current character, so this
left-to-right automaton finds exactly the non-overlapping matches. -/
def findTrigAux : ℕ → List Char → List String
  | _, [] => []
  | s, c :: rest =>
    if s = 4 then
      if c.isDigit then String.mk ['t', 'r', 'i', 'g', c] :: findTrigAux 0 rest
      else findTrigAux (if c = 't' then 1 else 0) rest
    else if s = 3 then
      if c = 'g' then findTrigAux 4 rest else findTrigAux (if c = 't' then 1 else 0) rest
    else if s = 2 then
      if c = 'i' then findTrigAux 3 rest else findTrigAux (if c = 't' then 1 else 0) rest
    else if s = 1 then
      if c = 'r' then findTrigAux 2 rest else findTrigAux (if c = 't' then 1 else 0) rest
    else if c = 't' then findTrigAux 1 rest
    else findTrigAux 0 rest

/-- All non-overlapping matches of the regular expression `trig\d` in a
character list, left to right (`re.findall`, lines 130-131). -/
def findTrigKeys (cs : List Char) : List String :=
  findTrigAux 0 cs

/-- Scanner state machine for the regular expression `ch\d` (the `h` of the
pattern is not a `c`, so the same restart argument applies). -/
def findChAux : ℕ → List Char → List String
  | _, [] => []
  | s, c :: rest =>
    if s = 2 then
      if c.isDigit then String.mk ['c', 'h', c] :: findChAux 0 rest
      else findChAux (if c = 'c' then 1 else 0) rest
    else if s = 1 then
      if c = 'h' then findChAux 2 rest else findChAux (if c = 'c' then 1 else 0) rest
    else if c = 'c' then findChAux 1 rest
    else findChAux 0 rest

/-- All non-overlapping matches of the regular expression `ch\d`
(`re.findall`, lines 247-248). -/
def findChKeys (cs : List Char) : List String :=
  findChAux 0 cs

/-- `int(k[-1])` for a key that the regular expression matched, whose last
character is therefore a digit. -/
def chanNum (k : String) : ℤ :=
  (((k.toList.getLastD '0').toNat - 48 : ℕ) : ℤ)

/-! ### Device commands, errors and engine state -/

/-- One device interaction: each constructor is one `write`/`query` call site of the
driver, carrying the data interpolated into the command text. Voltage and
impedance values are carried as exact rationals (the `%1.3f`/`%f` rendering is
abstracted); already-validated integers keep their decimal text. -/
inductive Cmd where
  /-- `CONF:FREQ %s,%s,(@%s)` (line 185) -/
  | confFreq (expv resv ch : String)
  /-- `SAMP:COUN 1` (line 187) -/
  | sampCoun1
  /-- `TRIG:COUN %d` (line 190) -/
  | trigCounN (n : ℤ)
  /-- `TRIGGer:COUNt %d` (line 290) -/
  | trigCount (n : ℤ)
  /-- `TRIGGer:DELay %s` with the `%.6f`-formatted delay (line 297) -/
  | trigDelay (s : String)
  /-- `TRIGGer:SOURce %s` (line 304) -/
  | trigSource (s : String)
  /-- `TRIGGer:SLOPe %s` (line 311) -/
  | trigSlope (s : String)
  /-- `INPUT%d:LEVEL:AUTO OFF` (line 147) -/
  | inputLevelAutoOff (ch : ℤ)
  /-- `INPUT%d:LEVEL %1.3f` (line 148) -/
  | inputLevel (ch : ℤ) (v : ℚ)
  /-- `INPUT%s:COUPLING %s` (lines 193 and 255) -/
  | inputCoupling (ch cou : String)
  /-- `SENS:FREQ:GATE:TIME .1` (line 194) -/
  | gateTime
  /-- `CONF:PER DEF,DEF,(@%d)` (line 253) -/
  | confPer (ch : ℤ)
  /-- `INIT` (lines 198, 256, 352) -/
  | init
  /-- query `*ESR?` (lines 201, 204) -/
  | queryESR
  /-- query `FETC?` (line 205) -/
  | queryFetch
  /-- query `R? %d` (line 219) -/
  | queryR (n : ℤ)
  /-- query `READ?` (lines 258, 363) -/
  | queryRead
deriving DecidableEq, Repr

/-- Outcome of a call that does not return normally. The first six constructors
are the Python exception classes the driver can raise; `blocked` models a query
whose response never arrives (the response oracle is exhausted), on which the
engine would wait forever. -/
inductive Err where
  | keyError (k : String)
  | valueError (msg : String)
  | typeError (msg : String)
  | attributeError (msg : String)
  | nameError (n : String)
  | exception (msg : String)
  | indexError
  | blocked
deriving DecidableEq, Repr

/-- The driver state the methods read and write: the saved trigger configuration
string `_savedTrigCfg` and saved trigger level `_savedTrigLev` (the latter is
initialised to `None` and never assigned anywhere else in the file). -/
structure KSState where
  savedTrigCfg : Option String
  savedTrigLev : Option String
deriving DecidableEq, Repr

/-! ### configureTrigger (lines 262-311) -/

/-- `%.6f` rendering of an already-range-checked (hence non-negative) integer
delay (line 296). -/
def fixed6 (n : ℤ) : String :=
  toString n ++ ".000000"

/-- Outcome of one `if "key" in cfgdict:` block of `configureTrigger`: `none`
when the key is absent, otherwise the command to emit or the exception raised. -/
def stepCnt (m : ConfigMap) : Option (Except Err Cmd) :=
  match cfgGet? m "cnt" with
  | none => none
  | some v =>
    some (match pyInt? v with
      | none => Except.error (Err.valueError "invalid literal for int")
      | some n =>
        if n < 1 ∨ n > 1000000 then
          Except.error (Err.attributeError ("Trigger Count out of limits (" ++ toString n ++ ")"))
        else Except.ok (Cmd.trigCount n))

/-- The `del` block (lines 291-297): note `int(cfgdict["del"])`, so a fractional
delay string raises ValueError before the range check. -/
def stepDel (m : ConfigMap) : Option (Except Err Cmd) :=
  match cfgGet? m "del" with
  | none => none
  | some v =>
    some (match pyInt? v with
      | none => Except.error (Err.valueError "invalid literal for int")
      | some n =>
        if n < 0 ∨ n > 3600 then
          Except.error (Err.attributeError ("Trigger delay out of limits (" ++ toString n ++ ")"))
        else Except.ok (Cmd.trigDelay (fixed6 n)))

/-- The `sou` block (lines 298-304). -/
def stepSou (m : ConfigMap) : Option (Except Err Cmd) :=
  match cfgGet? m "sou" with
  | none => none
  | some v =>
    some (if v = "imm" ∨ v = "bus" ∨ v = "ext" then Except.ok (Cmd.trigSource v)
      else Except.error (Err.attributeError ("Trigger source not valid (" ++ v ++ ")")))

/-- The `slo` block (lines 305-311). -/
def stepSlo (m : ConfigMap) : Option (Except Err Cmd) :=
  match cfgGet? m "slo" with
  | none => none
  | some v =>
    some (if v = "pos" ∨ v = "neg" then Except.ok (Cmd.trigSlope v)
      else Except.error (Err.attributeError ("Trigger slope not valid (" ++ v ++ ")")))

/-- The four validation blocks of `configureTrigger`, in source order. -/
def trigSteps (s : String) : List (Option (Except Err Cmd)) :=
  let m := parseConfig s
  [stepCnt m, stepDel m, stepSou m, stepSlo m]

/-- Run the blocks in order: each valid present key emits its command at once;
the first invalid key raises, abandoning the remaining blocks. -/
def runSteps : List (Option (Except Err Cmd)) → List Cmd × Option Err
  | [] => ([], none)
  | none :: rest => runSteps rest
  | some (Except.error e) :: _ => ([], some e)
  | some (Except.ok c) :: rest =>
    let r := runSteps rest
    (c :: r.1, r.2)

/-- Commands emitted and error raised by `configureTrigger` on a configuration
string (independent of the prior state). -/
def configureTriggerCmds (s : String) : List Cmd × Option Err :=
  runSteps (trigSteps s)

/-- `configureTrigger(cfgstr)` (lines 262-311). Line 283 stores the raw input
string into `_savedTrigCfg` before any validation, so the state update happens
even when the call raises. -/
def configureTrigger (s : String) (st : KSState) : KSState × List Cmd × Option Err :=
  ({ st with savedTrigCfg := some s }, (configureTriggerCmds s).1, (configureTriggerCmds s).2)

/-! ### trigLevel (lines 115-150) -/

/-- Body of the per-channel loop of `trigLevel` (lines 135-150). In the auto
branch (value starting with `a`), line 141 formats the log message
`"Mode auto for channel %s at %s\%"`, whose trailing `%` makes Python `%`
formatting raise `ValueError: incomplete format`, so the auto branch always
raises before emitting anything. In the manual branch `float(cur_t)` may raise,
then both level commands are emitted. -/
def trigLevelLoop (m : ConfigMap) : List String → List Cmd → List Cmd × Option Err
  | [], ws => (ws, none)
  | k :: ks, ws =>
    match cfgGet? m k with
    | none => (ws, some (Err.keyError k))
    | some cur =>
      match cur.toList with
      | [] => (ws, some Err.indexError)
      | c :: _ =>
        if c = 'a' then (ws, some (Err.valueError "incomplete format"))
        else
          match pyFloat? cur with
          | none => (ws, some (Err.valueError "could not convert string to float"))
          | some v =>
            trigLevelLoop m ks (ws ++ [Cmd.inputLevelAutoOff (chanNum k), Cmd.inputLevel (chanNum k) v])

/-- `trigLevel(cfgstr)` (lines 115-150): collect the `trig<digit>` keys; none
found raises AttributeError; otherwise process each channel in turn. -/
def trigLevel (cfgstr : String) : List Cmd × Option Err :=
  let m := parseConfig cfgstr
  let ks := findTrigKeys (joinedKeys m)
  if ks = [] then ([], some (Err.attributeError "No valid params passed to trigLevel"))
  else trigLevelLoop m ks []

/-! ### period (lines 234-260) -/

/-- `period(cfgstr)` (lines 234-260). The method performs no trigger-configured
check. At most one loop iteration can complete: line 259 calls `logging.debug`,
but the module imports only `re` and `time`, so the name `logging` is unbound
and the call raises NameError after the `READ?` query of the first channel. -/
def period (cfgstr : String) (resp : List String) : List Cmd × Option Err :=
  let m := parseConfig cfgstr
  let ks := findChKeys (joinedKeys m)
  match ks with
  | [] => ([], some (Err.exception "No valid params passed to period"))
  | k :: _ =>
    let ch := chanNum k
    let ws := [Cmd.confPer ch]
    let tl := trigLevel cfgstr
    let ws := ws ++ tl.1
    match tl.2 with
    | some e => (ws, some e)
    | none =>
      let ws := ws ++ [Cmd.inputCoupling (toString ch) "DC", Cmd.init]
      match resp with
      | [] => (ws ++ [Cmd.queryRead], some Err.blocked)
      | _ :: _ => (ws ++ [Cmd.queryRead], some (Err.nameError "logging"))

/-! ### timeInterval (lines 313-368) -/

/-- `timeInterval(cfgstr, meas_out)` (lines 313-368). Line 330 resolves the name
`logging`, which the module never imports, so every call raises NameError right
after parsing the configuration and before any device command; the channel
assignment, configuration writes and read loop of lines 332-368 are unreachable. -/
def timeInterval (cfgstr : String) (_resp : List String) : List Cmd × Option Err :=
  let _ := parseConfig cfgstr
  ([], some (Err.nameError "logging"))

/-- The reference/other channel assignment of line 332 (dead code at run time,
kept for comparison with the specified behaviour):
`(1,2) if cfgdict["ref"] == "A" else (2,1)`. -/
def refOtherChan (m : ConfigMap) : ℤ × ℤ :=
  if cfgGet? m "ref" = some "A" then (1, 2) else (2, 1)

/-! ### freq (lines 152-232) -/

/-- The chunk size `step` (class attribute, line 61). -/
def step : ℤ := 5

/-- Parse the comma-separated tokens of a chunk with `float` (lines 226-228):
values are appended one by one, so the first unparseable token raises ValueError
with the earlier values already appended. -/
def parseTokens : List (List Char) → List ℚ × Option Err
  | [] => ([], none)
  | t :: ts =>
    match pyFloatCs? t with
    | none => ([], some (Err.valueError "could not convert string to float"))
    | some q => (q :: (parseTokens ts).1, (parseTokens ts).2)

/-- The header skip of lines 222-225: advance `k` until `meas[k] == "+"`; if no
`+` occurs the index runs past the end and Python raises IndexError. Returns the
suffix starting at the first `+`. -/
def dropToPlus : List Char → Option (List Char)
  | [] => none
  | '+' :: r => some ('+' :: r)
  | _ :: r => dropToPlus r

/-- Values parsed out of one `R?` chunk response, and the error that aborts the
round, if any (lines 222-228). -/
def parseChunk (r : String) : List ℚ × Option Err :=
  match dropToPlus r.toList with
  | none => ([], some Err.indexError)
  | some cs => parseTokens (splitOnPred (· = ',') cs)

/-- A chunk response that parses completely. -/
def chunkOk (r : String) : Bool :=
  (parseChunk r).2.isNone

/-- Number of values a chunk response carries. -/
def chunkCount (r : String) : ℕ :=
  (parseChunk r).1.length

/-- Total number of values carried by a list of chunk responses. -/
def sumCounts : List String → ℕ
  | [] => 0
  | r :: rs => chunkCount r + sumCounts rs

/-- The streaming read loop of lines 216-232: while fewer than `samples` values
have been appended, query `R? 5`, skip the header, parse and append every token
of the chunk, and add the round count to `i`. Every value of a chunk is appended
(there is no truncation to the remaining target), and a parse failure aborts the
loop keeping what was appended. Returns (queries issued, values appended, error). -/
def streamLoop (samples : ℤ) : ℤ → List String → List ℚ → List Cmd → List Cmd × List ℚ × Option Err
  | i, [], acc, ws =>
    if i < samples then (ws ++ [Cmd.queryR step], acc, some Err.blocked) else (ws, acc, none)
  | i, r :: rs, acc, ws =>
    if i < samples then
      if (parseChunk r).2.isSome then
        (ws ++ [Cmd.queryR step], acc ++ (parseChunk r).1, (parseChunk r).2)
      else
        streamLoop samples (i + ((parseChunk r).1.length : ℤ)) rs (acc ++ (parseChunk r).1)
          (ws ++ [Cmd.queryR step])
    else (ws, acc, none)

/-- The blocking batch read of lines 200-209. The first `*ESR?` reply is parsed
with `int`; when its bit 0 is set, the re-poll line 204 reads `int(ok = query(...))`,
which evaluates the query and then raises `TypeError` (keyword argument to `int`);
when bit 0 is clear, `FETC?` is queried and line 206 formats
`"%d samples:\n$s" % (samples, meas)`, one conversion for a two-tuple, which
raises `TypeError: not all arguments converted`, so no value is ever appended. -/
def blockingRead (_samples : ℤ) (resp : List String) : List Cmd × List ℚ × Option Err :=
  match resp with
  | [] => ([Cmd.queryESR], [], some Err.blocked)
  | r1 :: rs =>
    match pyInt? r1 with
    | none => ([Cmd.queryESR], [], some (Err.valueError "invalid literal for int"))
    | some ok =>
      if ok.emod 2 = 1 then
        match rs with
        | [] => ([Cmd.queryESR, Cmd.queryESR], [], some Err.blocked)
        | _ :: _ => ([Cmd.queryESR, Cmd.queryESR], [], some (Err.typeError "int() takes no keyword arguments"))
      else
        match rs with
        | [] => ([Cmd.queryESR, Cmd.queryFetch], [], some Err.blocked)
        | _ :: _ =>
          ([Cmd.queryESR, Cmd.queryFetch], [],
            some (Err.typeError "not all arguments converted during string formatting"))

/-- Result of a `freq` call: final driver state, device interactions in order,
values appended to the result container, and the raised error if any. -/
structure FreqResult where
  state : KSState
  writes : List Cmd
  appended : List ℚ
  err : Option Err
deriving DecidableEq, Repr

/-- Coupling lookup, gate time, `INIT` and the choice of read strategy
(lines 193-232): blocking when `not breakread or samples == 1`, else streaming. -/
def freqCou (m : ConfigMap) (ch : String) (samples : ℤ) (saved : String) (lev : Option String)
    (ws : List Cmd) (br : Bool) (resp : List String) : FreqResult :=
  match cfgGet? m "cou" with
  | none => ⟨⟨some saved, lev⟩, ws, [], some (Err.keyError "cou")⟩
  | some cou =>
    let ws := ws ++ [Cmd.inputCoupling ch cou, Cmd.gateTime, Cmd.init]
    if !br || samples == 1 then
      let b := blockingRead samples resp
      ⟨⟨some saved, lev⟩, ws ++ b.1, b.2.1, b.2.2⟩
    else
      let r := streamLoop samples 0 resp [] []
      ⟨⟨some saved, lev⟩, ws ++ r.1, r.2.1, r.2.2⟩

/-- Re-application of the saved trigger level (line 192): only when
`_savedTrigLev` is not `None` (it never is in this driver). -/
def freqLev (m : ConfigMap) (ch : String) (samples : ℤ) (saved : String) (lev : Option String)
    (ws : List Cmd) (br : Bool) (resp : List String) : FreqResult :=
  match lev with
  | none => freqCou m ch samples saved none ws br resp
  | some l =>
    let tl := trigLevel l
    match tl.2 with
    | some e => ⟨⟨some saved, lev⟩, ws ++ tl.1, [], some e⟩
    | none => freqCou m ch samples saved lev (ws ++ tl.1) br resp

/-- Re-application of the saved trigger configuration (line 191):
`self.configureTrigger(self._savedTrigCfg)` re-runs the validation and command
emission on the saved string and propagates its exception. -/
def freqApplyTrig (m : ConfigMap) (ch : String) (samples : ℤ) (saved : String) (lev : Option String)
    (ws : List Cmd) (br : Bool) (resp : List String) : FreqResult :=
  let ct := configureTriggerCmds saved
  match ct.2 with
  | some e => ⟨⟨some saved, lev⟩, ws ++ ct.1, [], some e⟩
  | none => freqLev m ch samples saved lev (ws ++ ct.1) br resp

/-- Parameter resolution of lines 183-190. `cfgdict['exp']`, `cfgdict['res']`,
`cfgdict['ch']` and `cfgdict['sampl']` are plain subscripts: an absent key raises
KeyError (the `if cfgdict[k] else` defaults only apply to present falsy values,
i.e. empty strings). `sampl` is converted with `int` when non-empty. -/
def freqParams (m : ConfigMap) (saved : String) (lev : Option String) (br : Bool)
    (resp : List String) : FreqResult :=
  match cfgGet? m "exp" with
  | none => ⟨⟨some saved, lev⟩, [], [], some (Err.keyError "exp")⟩
  | some ev =>
    match cfgGet? m "res" with
    | none => ⟨⟨some saved, lev⟩, [], [], some (Err.keyError "res")⟩
    | some rv =>
      match cfgGet? m "ch" with
      | none => ⟨⟨some saved, lev⟩, [], [], some (Err.keyError "ch")⟩
      | some ch =>
        let expv := if ev ≠ "" then ev else "DEF"
        let resv := if rv ≠ "" then "1e-" ++ rv else "DEF"
        let ws := [Cmd.confFreq expv resv ch, Cmd.sampCoun1]
        match cfgGet? m "sampl" with
        | none => ⟨⟨some saved, lev⟩, ws, [], some (Err.keyError "sampl")⟩
        | some sv =>
          match (if sv ≠ "" then pyInt? sv else some 1) with
          | none => ⟨⟨some saved, lev⟩, ws, [], some (Err.valueError "invalid literal for int")⟩
          | some samples =>
            freqApplyTrig m ch samples saved lev (ws ++ [Cmd.trigCounN samples]) br resp

/-- `freq(cfgstr, meas_out, breakread)` (lines 152-232). The trigger-configured
precondition (lines 178-180) is checked first: with `_savedTrigCfg` still `None`
the call raises before any device command. (The `self.logger.Error(...)` on
line 179 is a call on the external logger object and is treated as a landing
log call; the `raise Exception(...)` of line 180 follows.) -/
def freq (cfgstr : String) (st : KSState) (br : Bool) (resp : List String) : FreqResult :=
  let m := parseConfig cfgstr
  match st.savedTrigCfg with
  | none =>
    ⟨st, [], [], some (Err.exception "Please configure the trigger system before calling this method.")⟩
  | some saved => freqParams m saved st.savedTrigLev br resp

/-! ### Derived notions used to state the properties -/

/-- The exception raised by the first invalid key among the validation blocks,
if any. -/
def firstStepErr : List (Option (Except Err Cmd)) → Option Err
  | [] => none
  | none :: rest => firstStepErr rest
  | some (Except.error e) :: _ => some e
  | some (Except.ok _) :: rest => firstStepErr rest

/-- The commands of the valid keys that precede the first invalid key. -/
def okCmdsBefore : List (Option (Except Err Cmd)) → List Cmd
  | [] => []
  | none :: rest => okCmdsBefore rest
  | some (Except.error _) :: _ => []
  | some (Except.ok c) :: rest => c :: okCmdsBefore rest

/-- The errors the specification groups under MalformedValue: a value that does
not parse as the expected numeric type (Python ValueError) and the header byte
never found in a chunk (Python IndexError from the scan of lines 223-224). -/
def isMalformedValue : Err → Bool
  | Err.valueError _ => true
  | Err.indexError => true
  | _ => false

/-- `isMalformedValue` on an optional error. -/
def errIsMalformed : Option Err → Bool
  | some e => isMalformedValue e
  | none => false

/-- All values carried by a list of chunk responses, in order. -/
def chunkVals (rs : List String) : List ℚ :=
  (rs.map (fun r => (parseChunk r).1)).flatten

/-! ## Helper lemmas -/

/-- `runSteps` emits exactly the commands of the valid keys preceding the first
invalid one and raises that key's error. -/
theorem runSteps_spec (l : List (Option (Except Err Cmd))) :
    runSteps l = (okCmdsBefore l, firstStepErr l) := by
  induction l with
  | nil => rfl
  | cons hd tl ih =>
    match hd with
    | none => simpa [runSteps, okCmdsBefore, firstStepErr] using ih
    | some (Except.error e) => simp [runSteps, okCmdsBefore, firstStepErr]
    | some (Except.ok c) => simp [runSteps, okCmdsBefore, firstStepErr, ih]

/-- The only error `parseTokens` can produce is the float-conversion ValueError. -/
theorem parseTokens_classify (ts : List (List Char)) :
    (parseTokens ts).2 = none ∨
      (parseTokens ts).2 = some (Err.valueError "could not convert string to float") := by
  induction ts with
  | nil => exact Or.inl rfl
  | cons t ts ih =>
    cases hf : pyFloatCs? t with
    | none => exact Or.inr (by simp [parseTokens, hf])
    | some q => simpa [parseTokens, hf] using ih

/-- A chunk that fails to parse fails with one of the errors the specification
calls MalformedValue. -/
theorem parseChunk_malformed (r : String) (h : chunkOk r = false) :
    errIsMalformed (parseChunk r).2 = true := by
  unfold chunkOk at h
  unfold parseChunk at h ⊢
  cases hd : dropToPlus r.toList with
  | none => simp [errIsMalformed, isMalformedValue]
  | some cs =>
    rw [hd] at h
    rcases parseTokens_classify (splitOnPred (· = ',') cs) with hc | hc
    · rw [hc] at h; simp at h
    · rw [hc]; simp [errIsMalformed, isMalformedValue]

/-! ## Claim theorems -/

/-- C1 (counterexample): validation is not all-or-nothing. The call
`configureTrigger("cnt:5 del:9999")` contains an out-of-range `del`, fails with
the InvalidParameter (AttributeError) for it, yet has already emitted the
trigger-count command for the valid `cnt` key — one command, not zero. -/
theorem configureTrigger_not_all_or_nothing :
    (configureTrigger "cnt:5 del:9999" ⟨none, none⟩).2.2 =
      some (Err.attributeError "Trigger delay out of limits (9999)") ∧
    (configureTrigger "cnt:5 del:9999" ⟨none, none⟩).2.1 = [Cmd.trigCount 5] ∧
    [Cmd.trigCount 5] ≠ ([] : List Cmd) := by
  refine ⟨by decide, by decide, by decide⟩

/-- C1 (amended): when the parsed configuration contains an invalid value among
`cnt`, `del`, `sou`, `slo`, the call fails with the error of the first invalid
key in that processing order, and the commands emitted are exactly those of the
valid keys processed before it (so zero commands only when the first processed
key is the invalid one). -/
theorem configureTrigger_prefix_emission (s : String) (st : KSState)
    (h : (firstStepErr (trigSteps s)).isSome = true) :
    (configureTrigger s st).2.2 = firstStepErr (trigSteps s) ∧
    (configureTrigger s st).2.1 = okCmdsBefore (trigSteps s) ∧
    (configureTrigger s st).2.2.isSome = true := by
  have hr := runSteps_spec (trigSteps s)
  refine ⟨?_, ?_, ?_⟩
  · show (configureTriggerCmds s).2 = _
    rw [configureTriggerCmds, hr]
  · show (configureTriggerCmds s).1 = _
    rw [configureTriggerCmds, hr]
  · show (configureTriggerCmds s).2.isSome = true
    rw [configureTriggerCmds, hr]
    exact h

/-- C1 (witness): the amended statement at the concrete call of the
counterexample. -/
theorem configureTrigger_prefix_emission_witness :
    (firstStepErr (trigSteps "cnt:5 del:9999")).isSome = true ∧
    ((configureTrigger "cnt:5 del:9999" ⟨none, none⟩).2.2 =
        firstStepErr (trigSteps "cnt:5 del:9999") ∧
      (configureTrigger "cnt:5 del:9999" ⟨none, none⟩).2.1 =
        okCmdsBefore (trigSteps "cnt:5 del:9999") ∧
      (configureTrigger "cnt:5 del:9999" ⟨none, none⟩).2.2.isSome = true) :=
  ⟨by decide, configureTrigger_prefix_emission "cnt:5 del:9999" ⟨none, none⟩ (by decide)⟩

/-- C2 (counterexample): `period` is a measurement method, but it performs no
trigger-configured check at all (its embedding does not even read the driver
state, because the source reads none): called with a valid channel key while no
trigger was ever configured, it emits the period-configuration command and then
fails inside `trigLevel` with an AttributeError — not with TriggerNotConfigured,
and not with zero device commands. -/
theorem period_no_trigger_check :
    period "ch1:1" [] =
      ([Cmd.confPer 1], some (Err.attributeError "No valid params passed to trigLevel")) ∧
    [Cmd.confPer 1] ≠ ([] : List Cmd) ∧
    Err.attributeError "No valid params passed to trigLevel" ≠
      Err.exception "Please configure the trigger system before calling this method." := by
  refine ⟨by decide, by decide, by decide⟩

/-- C2 (amended): only `freq` enforces the trigger-configured precondition:
with the saved trigger configuration still null it fails with the
TriggerNotConfigured exception and emits no device command, for every
configuration string; `period` performs no such check and proceeds to emit
device commands (shown on a concrete call), and `timeInterval` fails with a
NameError from the unimported `logging` module before emitting commands,
regardless of the trigger state. -/
theorem trigger_precondition_only_freq (cfgstr : String) (lev : Option String) (br : Bool)
    (resp resp2 : List String) :
    freq cfgstr ⟨none, lev⟩ br resp =
      ⟨⟨none, lev⟩, [], [],
        some (Err.exception "Please configure the trigger system before calling this method.")⟩ ∧
    timeInterval cfgstr resp2 = ([], some (Err.nameError "logging")) ∧
    period "ch1:1" [] =
      ([Cmd.confPer 1], some (Err.attributeError "No valid params passed to trigLevel")) := by
  refine ⟨rfl, rfl, by decide⟩

/-- C3 (counterexample): the streaming loop does not truncate the final chunk.
Requesting `sampl:3` while the single chunk reply carries five values appends all
five values to the result container — the run completes without error and the
total exceeds the requested count. -/
theorem freq_streaming_overshoot :
    (freq "ch:1 cou:ac exp:10E6 res:5 sampl:3" ⟨some "cnt:1", none⟩ true
        ["+1.0,+2.0,+3.0,+4.0,+5.0"]).appended.length = 5 ∧
    (freq "ch:1 cou:ac exp:10E6 res:5 sampl:3" ⟨some "cnt:1", none⟩ true
        ["+1.0,+2.0,+3.0,+4.0,+5.0"]).err = none ∧
    (freq "ch:1 cou:ac exp:10E6 res:5 sampl:3" ⟨some "cnt:1", none⟩ true
        ["+1.0,+2.0,+3.0,+4.0,+5.0"]).appended.length ≠ 3 := by
  refine ⟨by decide, by decide, by decide⟩

/-- C4: `trigLevel("trig1:a50 trig2:2.5")` never reaches the device. The auto
branch for channel 1 formats the log message of line 141, whose format string
ends in a bare `%`, so Python raises `ValueError: incomplete format` before any
command is emitted (and even without that, `float("a50")` on line 148 would
raise). A manual-only configuration, by contrast, does emit the auto-off and
numeric level commands. -/
theorem trigLevel_auto_mode_crashes :
    trigLevel "trig1:a50 trig2:2.5" = ([], some (Err.valueError "incomplete format")) ∧
    trigLevel "trig2:2.5" =
      ([Cmd.inputLevelAutoOff 2, Cmd.inputLevel 2 (5 / 2 : ℚ)], none) := by
  refine ⟨by decide, by with_unfolding_all decide⟩

/-- C5: the optional keys of `freq` are not optional in the code. Omitting `exp`
(here with `ch` and `cou` given and the trigger configured) raises
`KeyError: exp` before any command, instead of defaulting to DEF; the defaults
only apply when the keys are present with empty values, as the second conjunct
shows (`exp:`/`res:` become DEF, `sampl:` becomes 1 sample). -/
theorem freq_missing_optional_key_raises :
    freq "ch:1 cou:ac" ⟨some "cnt:1", none⟩ false [] =
      ⟨⟨some "cnt:1", none⟩, [], [], some (Err.keyError "exp")⟩ ∧
    freq "ch:1 cou:ac exp: res: sampl:" ⟨some "cnt:1", none⟩ false [] =
      ⟨⟨some "cnt:1", none⟩,
        [Cmd.confFreq "DEF" "DEF" "1", Cmd.sampCoun1, Cmd.trigCounN 1, Cmd.trigCount 1,
          Cmd.inputCoupling "1" "ac", Cmd.gateTime, Cmd.init, Cmd.queryESR],
        [], some Err.blocked⟩ := by
  refine ⟨by decide, by decide⟩

/-- C6: the blocking batch read never appends a value. When the first `*ESR?`
reply has the busy bit set, the re-poll of line 204 — `int(ok = query(...))` —
raises TypeError after issuing the second status query; when the busy bit is
clear, the fetch is issued but formatting the debug message of line 206
(`"%d samples:\n$s"` against a two-tuple) raises TypeError before the reply is
split and parsed, so in both cases the result container stays empty. -/
theorem freq_blocking_read_crashes :
    freq "ch:1 cou:ac exp:10E6 res:5 sampl:2" ⟨some "cnt:1", none⟩ false ["1", "0"] =
      ⟨⟨some "cnt:1", none⟩,
        [Cmd.confFreq "10E6" "1e-5" "1", Cmd.sampCoun1, Cmd.trigCounN 2, Cmd.trigCount 1,
          Cmd.inputCoupling "1" "ac", Cmd.gateTime, Cmd.init, Cmd.queryESR, Cmd.queryESR],
        [], some (Err.typeError "int() takes no keyword arguments")⟩ ∧
    freq "ch:1 cou:ac exp:10E6 res:5 sampl:2" ⟨some "cnt:1", none⟩ false ["0", "1.0,2.0"] =
      ⟨⟨some "cnt:1", none⟩,
        [Cmd.confFreq "10E6" "1e-5" "1", Cmd.sampCoun1, Cmd.trigCounN 2, Cmd.trigCount 1,
          Cmd.inputCoupling "1" "ac", Cmd.gateTime, Cmd.init, Cmd.queryESR, Cmd.queryFetch],
        [], some (Err.typeError "not all arguments converted during string formatting")⟩ := by
  refine ⟨by decide, by decide⟩

/-- C7: a non-integer delay is rejected, not accepted. `configureTrigger` parses
`del` with `int(...)`, so the in-range real `0.5` raises ValueError with no
command emitted, while an integer delay is accepted and emitted with the
six-decimal `%.6f` rendering. -/
theorem configureTrigger_fractional_delay_rejected :
    configureTrigger "del:0.5" ⟨none, none⟩ =
      (⟨some "del:0.5", none⟩, [], some (Err.valueError "invalid literal for int")) ∧
    configureTrigger "del:2" ⟨none, none⟩ =
      (⟨some "del:2", none⟩, [Cmd.trigDelay "2.000000"], none) := by
  refine ⟨by decide, by decide⟩

/-- C8: `timeInterval` raises `NameError` (the module never imports `logging`,
used on line 330) immediately after parsing, before the time-interval
configuration command can be emitted — for the claim's input with `ref:A` the
run emits nothing. The channel assignment expression of line 332 itself (dead
code) does map `ref:A` to reference 1/other 2 and any other value to 2/1, as
the claim describes. -/
theorem timeInterval_raises_nameerror :
    timeInterval "ref:A sampl:1 coup:dc imp:50 trig1:1.0" [] =
      ([], some (Err.nameError "logging")) ∧
    refOtherChan (parseConfig "ref:A sampl:1 coup:dc imp:50 trig1:1.0") = (1, 2) ∧
    refOtherChan (parseConfig "ref:B sampl:1 coup:dc imp:50 trig1:1.0") = (2, 1) := by
  refine ⟨by decide, by decide, by decide⟩

/-- C3 (amended): the streaming loop stops as soon as the cumulative count
reaches the requested total, appending every value of each consumed chunk
without truncation. Whenever the consumed chunks carry exactly the remaining
count in total — in particular for any irregular sequence of chunk sizes whose
partial sums never jump past the target — the loop terminates without error and
the number of appended values is exactly the requested count. -/
theorem streamLoop_exact_when_no_overshoot (N i : ℤ) (rs : List String) (acc : List ℚ)
    (ws : List Cmd) (h1 : rs.all chunkOk = true) (h2 : i + ((sumCounts rs : ℕ) : ℤ) = N) :
    (streamLoop N i rs acc ws).2.2 = none ∧
    ((streamLoop N i rs acc ws).2.1.length : ℤ) = (acc.length : ℤ) + (N - i) := by
  induction rs generalizing i acc ws with
  | nil =>
    have hiN : i = N := by simp [sumCounts] at h2; omega
    subst hiN
    simp [streamLoop]
  | cons r rs ih =>
    rw [List.all_cons, Bool.and_eq_true] at h1
    obtain ⟨h1a, h1b⟩ := h1
    have hok : (parseChunk r).2.isSome = false := by
      unfold chunkOk at h1a
      cases hc : (parseChunk r).2 with
      | none => rfl
      | some e => rw [hc] at h1a; simp at h1a
    by_cases hlt : i < N
    · have h2' : (i + ((parseChunk r).1.length : ℤ)) + ((sumCounts rs : ℕ) : ℤ) = N := by
        simp only [sumCounts, chunkCount] at h2
        push_cast at h2 ⊢
        omega
      have hrec := ih (i + ((parseChunk r).1.length : ℤ)) (acc ++ (parseChunk r).1)
        (ws ++ [Cmd.queryR step]) h1b h2'
      refine ⟨?_, ?_⟩
      · simpa [streamLoop, hlt, hok] using hrec.1
      · rw [show (streamLoop N i (r :: rs) acc ws) =
            streamLoop N (i + ((parseChunk r).1.length : ℤ)) rs (acc ++ (parseChunk r).1)
              (ws ++ [Cmd.queryR step]) by simp [streamLoop, hlt, hok]]
        rw [hrec.2]
        push_cast [List.length_append]
        omega
    · have hnn : (0 : ℤ) ≤ ((sumCounts (r :: rs) : ℕ) : ℤ) := Int.natCast_nonneg _
      have hiN : i = N := by omega
      subst hiN
      simp [streamLoop, hlt]

/-- C3 (witness): a run with requested total 15 and irregular chunk sizes
5, 3, 5, 2 appends exactly 15 values and ends without error. -/
theorem streamLoop_exact_when_no_overshoot_witness :
    ((["+1.0,+2.0,+3.0,+4.0,+5.0", "+1.5,+2.5,+3.5", "+1.0,+2.0,+3.0,+4.0,+5.0",
        "+9.0,+8.0"].all chunkOk = true) ∧
      (0 : ℤ) + ((sumCounts ["+1.0,+2.0,+3.0,+4.0,+5.0", "+1.5,+2.5,+3.5",
        "+1.0,+2.0,+3.0,+4.0,+5.0", "+9.0,+8.0"] : ℕ) : ℤ) = 15) ∧
    (streamLoop 15 0 ["+1.0,+2.0,+3.0,+4.0,+5.0", "+1.5,+2.5,+3.5",
        "+1.0,+2.0,+3.0,+4.0,+5.0", "+9.0,+8.0"] [] []).2.2 = none ∧
    ((streamLoop 15 0 ["+1.0,+2.0,+3.0,+4.0,+5.0", "+1.5,+2.5,+3.5",
        "+1.0,+2.0,+3.0,+4.0,+5.0", "+9.0,+8.0"] [] []).2.1.length : ℤ) =
      (([] : List ℚ).length : ℤ) + (15 - 0) :=
  ⟨⟨by decide, by decide⟩,
    streamLoop_exact_when_no_overshoot 15 0 _ [] [] (by decide) (by decide)⟩

/-- C9: in the streaming read, a chunk whose header `+` never occurs, or one of
whose comma-separated tokens does not parse as a float, aborts the loop with the
corresponding MalformedValue-class error (IndexError from the header scan,
ValueError from `float`), and the values appended to the result container are
exactly those of the rounds before the bad chunk plus the parsable prefix of the
bad chunk itself — nothing is rolled back. -/
theorem streamLoop_malformed_chunk_aborts (N i : ℤ) (rs : List String) (b : String)
    (rest : List String) (acc : List ℚ) (ws : List Cmd)
    (h1 : rs.all chunkOk = true) (h2 : i + ((sumCounts rs : ℕ) : ℤ) < N)
    (h3 : chunkOk b = false) :
    (streamLoop N i (rs ++ b :: rest) acc ws).2.2 = (parseChunk b).2 ∧
    errIsMalformed (parseChunk b).2 = true ∧
    (streamLoop N i (rs ++ b :: rest) acc ws).2.1 = acc ++ chunkVals rs ++ (parseChunk b).1 := by
  induction rs generalizing i acc ws with
  | nil =>
    have hlt : i < N := by simp [sumCounts] at h2; omega
    have hbad : (parseChunk b).2.isSome = true := by
      unfold chunkOk at h3
      cases hc : (parseChunk b).2 with
      | none => rw [hc] at h3; simp at h3
      | some e => rfl
    refine ⟨?_, parseChunk_malformed b h3, ?_⟩
    · simp [streamLoop, hlt, hbad]
    · simp [streamLoop, hlt, hbad, chunkVals]
  | cons r rs ih =>
    rw [List.all_cons, Bool.and_eq_true] at h1
    obtain ⟨h1a, h1b⟩ := h1
    have hok : (parseChunk r).2.isSome = false := by
      unfold chunkOk at h1a
      cases hc : (parseChunk r).2 with
      | none => rfl
      | some e => rw [hc] at h1a; simp at h1a
    have hlt : i < N := by
      have hnn : (0 : ℤ) ≤ ((sumCounts (r :: rs) : ℕ) : ℤ) := Int.natCast_nonneg _
      omega
    have h2' : (i + ((parseChunk r).1.length : ℤ)) + ((sumCounts rs : ℕ) : ℤ) < N := by
      simp only [sumCounts, chunkCount] at h2
      push_cast at h2 ⊢
      omega
    have hrec := ih (i + ((parseChunk r).1.length : ℤ)) (acc ++ (parseChunk r).1)
      (ws ++ [Cmd.queryR step]) h1b h2'
    have hstep : streamLoop N i ((r :: rs) ++ b :: rest) acc ws =
        streamLoop N (i + ((parseChunk r).1.length : ℤ)) (rs ++ b :: rest)
          (acc ++ (parseChunk r).1) (ws ++ [Cmd.queryR step]) := by
      simp [streamLoop, hlt, hok]
    refine ⟨?_, hrec.2.1, ?_⟩
    · rw [hstep]; exact hrec.1
    · rw [hstep, hrec.2.2]
      simp [chunkVals, List.append_assoc]

/-- C9 (witness): with target 10, a complete first chunk of two values and then
a headerless chunk, the loop aborts with IndexError holding exactly the two
values read so far. -/
theorem streamLoop_malformed_chunk_aborts_witness :
    ((["+1.0,+2.0"].all chunkOk = true) ∧
      (0 : ℤ) + ((sumCounts ["+1.0,+2.0"] : ℕ) : ℤ) < 10 ∧ chunkOk "noheader" = false) ∧
    (streamLoop 10 0 (["+1.0,+2.0"] ++ "noheader" :: []) [] []).2.2 =
      (parseChunk "noheader").2 ∧
    errIsMalformed (parseChunk "noheader").2 = true ∧
    (streamLoop 10 0 (["+1.0,+2.0"] ++ "noheader" :: []) [] []).2.1 =
      [] ++ chunkVals ["+1.0,+2.0"] ++ (parseChunk "noheader").1 :=
  ⟨⟨by decide, by decide, by decide⟩,
    streamLoop_malformed_chunk_aborts 10 0 ["+1.0,+2.0"] "noheader" [] [] []
      (by decide) (by decide) (by decide)⟩

/-- C10: `configureTrigger` stores the raw configuration string into the saved
trigger configuration before validating anything, so a call that fails
validation still overwrites the saved state with the invalid string; a later
`freq` call (here with a fully populated measurement configuration) then passes
the trigger-configured precondition, emits its setup commands, and re-applies
the saved invalid configuration, failing with that configuration's own
validation error rather than TriggerNotConfigured. -/
theorem invalid_trigger_cfg_retained_and_reapplied (s : String) (st : KSState) (e : Err)
    (br : Bool) (resp : List String) (h : (configureTriggerCmds s).2 = some e) :
    (configureTrigger s st).1.savedTrigCfg = some s ∧
    freq "ch:1 cou:ac exp:10E6 res:5 sampl:2" ⟨some s, none⟩ br resp =
      ⟨⟨some s, none⟩,
        [Cmd.confFreq "10E6" "1e-5" "1", Cmd.sampCoun1, Cmd.trigCounN 2] ++
          (configureTriggerCmds s).1,
        [], some e⟩ := by
  refine ⟨rfl, ?_⟩
  have h0 : freq "ch:1 cou:ac exp:10E6 res:5 sampl:2" ⟨some s, none⟩ br resp =
      freqApplyTrig (parseConfig "ch:1 cou:ac exp:10E6 res:5 sampl:2") "1" 2 s none
        [Cmd.confFreq "10E6" "1e-5" "1", Cmd.sampCoun1, Cmd.trigCounN 2] br resp := rfl
  rw [h0]
  simp only [freqApplyTrig, h]

/-- C10 (witness): the concrete invalid configuration `cnt:0` (count below 1)
is retained and re-applied by the following `freq` call. -/
theorem invalid_trigger_cfg_retained_and_reapplied_witness :
    (configureTriggerCmds "cnt:0").2 =
      some (Err.attributeError "Trigger Count out of limits (0)") ∧
    (configureTrigger "cnt:0" ⟨none, none⟩).1.savedTrigCfg = some "cnt:0" ∧
    freq "ch:1 cou:ac exp:10E6 res:5 sampl:2" ⟨some "cnt:0", none⟩ false [] =
      ⟨⟨some "cnt:0", none⟩,
        [Cmd.confFreq "10E6" "1e-5" "1", Cmd.sampCoun1, Cmd.trigCounN 2] ++
          (configureTriggerCmds "cnt:0").1,
        [], some (Err.attributeError "Trigger Count out of limits (0)")⟩ :=
  ⟨by decide,
    invalid_trigger_cfg_retained_and_reapplied "cnt:0" ⟨none, none⟩
      (Err.attributeError "Trigger Count out of limits (0)") false [] (by decide)⟩

end KS53230
